import Mathlib

/-!
Shallow embedding of `src/charm.py` (GenericExporterCharm): a Juju charm that
installs a prometheus-exporter snap from an attached resource or from the snap
store, pushes snap configuration, and writes an alert-rules file.

External collaborators (ops framework, snapd, PyYAML, the filesystem) are
modelled explicitly: the snap cache and filesystem are fields of a `World`
state record, PyYAML's `safe_load` is a function field of the `Env` record
(its behaviour on the inputs a claim depends on is supplied as a hypothesis),
and every externally visible call is recorded in a trace of `Effect`s.
-/

/-- A value produced by parsing YAML (model of what `yaml.safe_load` returns). -/
inductive YamlValue where
  | null
  | bool (b : Bool)
  | int (n : Int)
  | str (s : String)
  | map (entries : List (String × YamlValue))

/-- Python truthiness of a parsed YAML value (`if snap_config ...`, charm.py:104). -/
def YamlValue.truthy : YamlValue → Bool
  | .null => false
  | .bool b => b
  | .int n => n != 0
  | .str s => s != ""
  | .map m => !m.isEmpty

/-- Python equality of a parsed YAML value with the string literal `"None"`
(`snap_config != "None"`, charm.py:104): only a string value can compare equal. -/
def YamlValue.isStrNone : YamlValue → Bool
  | .str s => s == "None"
  | _ => false

/-- The validated configuration snapshot (pydantic model `ExporterConfig`,
charm.py:26-33). Optional string fields are `Option String`. -/
structure ExporterConfig where
  exporter_port : Int
  snap_name : Option String := none
  snap_config : Option String := none
  snap_channel : String
  classic : Bool
  metrics_path : String
  alert_rules : Option String := none

/-- Unit status values the charm sets (`ops.BlockedStatus` / `ops.ActiveStatus`). -/
inductive Status where
  | unset
  | blocked (msg : String)
  | active (msg : String)
deriving DecidableEq, Repr

/-- State of the external snap machinery: which snaps are present
(`cache[name].present`) and each snap's configuration store (`snap set`). -/
structure SnapSt where
  present : String → Bool
  config : String → String → Option YamlValue

/-- State of the local filesystem: which directories exist and file contents. -/
structure FS where
  dirs : String → Bool
  files : String → Option String

/-- The full mutable state the charm's handlers act on. -/
structure World where
  snaps : SnapSt
  fs : FS
  status : Status

/-- The external environment of one dispatch: whether a resource artifact is
attached (and its size in bytes), the snap name `snap.install_local` would
report for that artifact, the behaviour of `yaml.safe_load`, and the
application name (used for the rules directory `/etc/<app-name>/`). -/
structure Env where
  resourceSize : Option Nat
  localSnapName : String
  yamlLoad : String → YamlValue
  appName : String

/-- Externally visible calls made by a handler, in order. -/
inductive Effect where
  | installLocal (dangerous classic : Bool)
  | storeEnsure (name channel : String) (classic : Bool)
  | snapSet (name : String)
  | mkdirP (path : String)
  | writeFile (path content : String)
deriving DecidableEq, Repr

/-- Exceptions that escape a handler. `snapNameNotConfigured` models the
charm's own `SnapNameNotConfigured`; `typeError` models the crash of
`exporter.set` when the parsed YAML is not a mapping. -/
inductive CharmErr where
  | snapNameNotConfigured (msg : String)
  | typeError
deriving DecidableEq, Repr

/-- Mark a snap as present (effect of a successful install). -/
def setPresent (p : String → Bool) (n : String) : String → Bool :=
  fun m => if m = n then true else p m

/-- First binding of a key in a YAML mapping's entry list. -/
def lookupEntry (k : String) : List (String × YamlValue) → Option YamlValue
  | [] => none
  | (k', v) :: rest => if k' = k then some v else lookupEntry k rest

/-- `cache[name].set(mapping, typed=True)`: write every key of the mapping into
snap `n`'s configuration store, leaving other snaps and other keys unchanged. -/
def setSnapConfig (c : String → String → Option YamlValue) (n : String)
    (entries : List (String × YamlValue)) : String → String → Option YamlValue :=
  fun m k =>
    if m = n then
      match lookupEntry k entries with
      | some v => some v
      | none => c m k
    else c m k

/-- `Path.mkdir(parents=True, exist_ok=True)`: ensure a directory exists; no
error and no change if already present. -/
def mkdirP (ds : String → Bool) (dir : String) : String → Bool :=
  fun d => if d = dir then true else ds d

/-- `Path.write_text`: overwrite a file's content completely. -/
def writeText (fl : String → Option String) (p c : String) : String → Option String :=
  fun q => if q = p then some c else fl q

/-- Python `x or d` for an optional string `x`: the only falsy string is `""`. -/
def orDefault (o : Option String) (d : String) : String :=
  match o with
  | some s => if s = "" then d else s
  | none => d

/-- The test `not cfg_name or cfg_name == "None"` (charm.py:90): the configured
snap name is absent, empty, or the literal placeholder string. -/
def snapNameUnset : Option String → Bool
  | none => true
  | some s => s == "" || s == "None"

/-- The blocked-status message of charm.py:91. -/
def snapNameErrMsg : String :=
  "Either snap-name needs to be configured or a snap needs to be attached as a resource"

/-- The alert-rules directory `/etc/<app-name>/` (charm.py:47). -/
def rulesDir (appName : String) : String := "/etc/" ++ appName ++ "/"

/-- The alert-rules file `rules_dir / "alerts.rules"` (charm.py:114). -/
def rulesFile (appName : String) : String := rulesDir appName ++ "alerts.rules"

/-- Placeholder content written when no alert rules are configured. -/
def noAlerts : String := "# no alerts\n"

/-- The store half of `_install_snap` (charm.py:89-98): if `snap-name` is
absent/empty/"None", set blocked status and raise `SnapNameNotConfigured`;
otherwise `_install_from_store` (charm.py:72-77): ensure the snap only when it
is not already present, then set active status and return the configured name. -/
def installSnapStore (cfg : ExporterConfig) (w : World) :
    World × List Effect × Except CharmErr String :=
  if snapNameUnset cfg.snap_name then
    ({ w with status := Status.blocked snapNameErrMsg }, [],
     Except.error (CharmErr.snapNameNotConfigured snapNameErrMsg))
  else
    if w.snaps.present (cfg.snap_name.getD "") then
      ({ w with status := Status.active "snap installed" }, [],
       Except.ok (cfg.snap_name.getD ""))
    else
      ({ w with snaps := { w.snaps with
                           present := setPresent w.snaps.present (cfg.snap_name.getD "") },
                status := Status.active "snap installed" },
       [Effect.storeEnsure (cfg.snap_name.getD "") cfg.snap_channel cfg.classic],
       Except.ok (cfg.snap_name.getD ""))

/-- `_install_snap` (charm.py:79-98). Fetching the resource raises
`ops.model.ModelError` when none is attached; `_install_from_resource`
(charm.py:65-70) raises `ops.model.ModelError("Resource File is empty")` when
the artifact is zero bytes. Both exceptions are caught by the same
`except ops.model.ModelError` clause (charm.py:86), so both cases fall through
to the store path. A non-empty artifact is installed with
`snap.install_local(dangerous=True, classic=...)` and its reported name is
returned after setting active status. -/
def installSnap (cfg : ExporterConfig) (env : Env) (w : World) :
    World × List Effect × Except CharmErr String :=
  match env.resourceSize with
  | none => installSnapStore cfg w
  | some sz =>
    if sz = 0 then
      installSnapStore cfg w
    else
      ({ w with snaps := { w.snaps with present := setPresent w.snaps.present env.localSnapName },
                status := Status.active "snap installed" },
       [Effect.installLocal true cfg.classic], Except.ok env.localSnapName)

/-- Steps 4-6 of `_configure` (charm.py:110-116): ensure the rules directory,
overwrite `alerts.rules` with `rules or "# no alerts\n"`, set active status. -/
def writeRules (cfg : ExporterConfig) (env : Env) (w : World) (tr : List Effect) :
    World × List Effect × Except CharmErr Unit :=
  let dir := rulesDir env.appName
  let content := orDefault cfg.alert_rules noAlerts
  ({ w with
      fs := { dirs := mkdirP w.fs.dirs dir,
              files := writeText w.fs.files (rulesFile env.appName) content },
      status := Status.active "configured" },
   tr ++ [Effect.mkdirP dir, Effect.writeFile (rulesFile env.appName) content],
   Except.ok ())

/-- `_configure` (charm.py:100-116): run `_install_snap` (exceptions
propagate), parse `snap_config or ""` with `yaml.safe_load`, push it with
`set(..., typed=True)` unless falsy or equal to the string `"None"`, then
write the alert-rules file and set active status. -/
def configure (cfg : ExporterConfig) (env : Env) (w : World) :
    World × List Effect × Except CharmErr Unit :=
  match installSnap cfg env w with
  | (w1, tr1, Except.error e) => (w1, tr1, Except.error e)
  | (w1, tr1, Except.ok name) =>
    if (env.yamlLoad (cfg.snap_config.getD "")).truthy
        && !(env.yamlLoad (cfg.snap_config.getD "")).isStrNone then
      match env.yamlLoad (cfg.snap_config.getD "") with
      | YamlValue.map entries =>
        writeRules cfg env
          { w1 with snaps := { w1.snaps with config := setSnapConfig w1.snaps.config name entries } }
          (tr1 ++ [Effect.snapSet name])
      | _ => (w1, tr1, Except.error CharmErr.typeError)
    else
      writeRules cfg env w1 tr1

/-- The kinds of lifecycle events the charm observes. -/
inductive EventKind where
  | install
  | config_changed
  | upgrade_charm
deriving DecidableEq, Repr

/-- The handler functions the charm registers. -/
inductive HandlerFun where
  | installSnapH
  | configureH
deriving DecidableEq, Repr

/-- A metrics scrape endpoint handed to `COSAgentProvider`. -/
structure MetricsEndpoint where
  path : String
  port : Int
deriving DecidableEq, Repr

/-- The observable result of running the constructor: the unit state, the
registered event handlers, and the COS registration data. -/
structure CharmState where
  world : World
  handlers : List (EventKind × HandlerFun)
  endpoints : List MetricsEndpoint
  rulesDirReg : Option String

/-- `GenericExporterCharm.__init__` (charm.py:38-62). `load` is the outcome of
`self.load_config(ExporterConfig)`: on a `ValueError` carrying message `e` the
constructor logs, sets blocked status with the error text, and returns before
registering any handler or COS endpoint; on success it registers the three
handlers and one endpoint `{path: "/" + metrics_path, port: exporter_port}`. -/
def charmInit (load : Except String ExporterConfig) (appName : String) (w : World) :
    CharmState :=
  match load with
  | Except.error e =>
    { world := { w with status := Status.blocked e },
      handlers := [], endpoints := [], rulesDirReg := none }
  | Except.ok cfg =>
    { world := w,
      handlers := [(EventKind.install, HandlerFun.installSnapH),
                   (EventKind.config_changed, HandlerFun.configureH),
                   (EventKind.upgrade_charm, HandlerFun.installSnapH)],
      endpoints := [{ path := "/" ++ cfg.metrics_path, port := cfg.exporter_port }],
      rulesDirReg := some (rulesDir appName) }

/-- A world with nothing installed, no files, no status. -/
def emptyWorld : World :=
  { snaps := { present := fun _ => false, config := fun _ _ => none },
    fs := { dirs := fun _ => false, files := fun _ => none },
    status := Status.unset }

/-- A concrete `yaml.safe_load` for witnesses: the empty document parses to
null and a bare scalar word parses to itself as a string (PyYAML behaviour on
the inputs used below). -/
def yamlLoadExample : String → YamlValue := fun s =>
  if s = "" then YamlValue.null
  else if s = "a: 1" then YamlValue.map [("a", YamlValue.int 1)]
  else YamlValue.str s

/-- Example environment: no resource attached. -/
def envNoRes : Env :=
  { resourceSize := none, localSnapName := "res-snap",
    yamlLoad := yamlLoadExample, appName := "generic-exporter" }

/-- Example environment: a 42-byte resource attached. -/
def envRes : Env := { envNoRes with resourceSize := some 42 }

/-- Example environment: a zero-byte resource attached. -/
def envRes0 : Env := { envNoRes with resourceSize := some 0 }

/-- Example configuration naming a store snap. -/
def cfgStore : ExporterConfig :=
  { exporter_port := 9100, snap_name := some "node-exporter",
    snap_channel := "latest/stable", classic := false, metrics_path := "metrics" }

/-- Whether a trace contains a store-install call. -/
def hasStoreEnsure : List Effect → Bool
  | [] => false
  | Effect.storeEnsure _ _ _ :: _ => true
  | _ :: rest => hasStoreEnsure rest

/-- Whether a trace contains a local (resource) install call. -/
def hasInstallLocal : List Effect → Bool
  | [] => false
  | Effect.installLocal _ _ :: _ => true
  | _ :: rest => hasInstallLocal rest

/-- Whether a trace contains a configuration push (`snap set`). -/
def hasSnapSet : List Effect → Bool
  | [] => false
  | Effect.snapSet _ :: _ => true
  | _ :: rest => hasSnapSet rest

/-- Whether a trace contains a file write. -/
def hasWriteFile : List Effect → Bool
  | [] => false
  | Effect.writeFile _ _ :: _ => true
  | _ :: rest => hasWriteFile rest

/-- Scanning the trace in order: no file write may occur before `dir` has been
created. Once a `mkdirP dir` is seen, everything after it is allowed. -/
def writesPrecededByMkdir (dir : String) : List Effect → Bool
  | [] => true
  | Effect.mkdirP d :: rest =>
    if d = dir then true else writesPrecededByMkdir dir rest
  | Effect.writeFile _ _ :: _ => false
  | _ :: rest => writesPrecededByMkdir dir rest

theorem setPresent_apply (p : String → Bool) (n : String) : setPresent p n n = true := by
  simp [setPresent]

theorem setPresent_self (p : String → Bool) (n : String) (h : p n = true) :
    setPresent p n = p := by
  funext m
  by_cases hm : m = n
  · subst hm; simp [setPresent, h]
  · simp [setPresent, hm]

theorem setSnapConfig_idem (c : String → String → Option YamlValue) (n : String)
    (e : List (String × YamlValue)) :
    setSnapConfig (setSnapConfig c n e) n e = setSnapConfig c n e := by
  funext m k
  by_cases hm : m = n
  · subst hm
    cases h : lookupEntry k e <;> simp [setSnapConfig, h]
  · simp [setSnapConfig, hm]

theorem mkdirP_idem (ds : String → Bool) (dir : String) :
    mkdirP (mkdirP ds dir) dir = mkdirP ds dir := by
  funext d
  by_cases h : d = dir <;> simp [mkdirP, h]

theorem writeText_idem (fl : String → Option String) (p c : String) :
    writeText (writeText fl p c) p c = writeText fl p c := by
  funext q
  by_cases h : q = p <;> simp [writeText, h]

/-- Claim C2 (confirmed): with no resource attached and `snap-name` absent,
empty, or the literal `"None"`, `_install_snap` sets blocked status with the
descriptive message of charm.py:91, raises `SnapNameNotConfigured`, and makes
no store-install call (the effect trace is empty). -/
theorem install_snap_blocks_without_snap_name (cfg : ExporterConfig) (env : Env) (w : World)
    (hres : env.resourceSize = none)
    (hname : cfg.snap_name = none ∨ cfg.snap_name = some "" ∨ cfg.snap_name = some "None") :
    installSnap cfg env w =
      ({ w with status := Status.blocked snapNameErrMsg }, [],
       Except.error (CharmErr.snapNameNotConfigured snapNameErrMsg)) := by
  have hu : snapNameUnset cfg.snap_name = true := by
    rcases hname with h | h | h <;> simp [snapNameUnset, h]
  simp [installSnap, hres, installSnapStore, hu]

/-- Concrete instance of `install_snap_blocks_without_snap_name`:
snap-name is the placeholder string "None" and no resource is attached. -/
theorem install_snap_blocks_without_snap_name_witness :
    installSnap { cfgStore with snap_name := some "None" } envNoRes emptyWorld =
      ({ emptyWorld with status := Status.blocked snapNameErrMsg }, [],
       Except.error (CharmErr.snapNameNotConfigured snapNameErrMsg)) :=
  install_snap_blocks_without_snap_name _ _ _ rfl (Or.inr (Or.inr rfl))

/-- Claim C3 (confirmed): with a non-empty resource attached, `_install_snap`
installs from the resource (`install_local`, dangerous mode), sets status
active "snap installed", returns the name reported by the resource install,
and never emits a store-install call, regardless of `snap-name`. -/
theorem install_snap_prefers_resource (cfg : ExporterConfig) (env : Env) (w : World)
    (sz : Nat) (hres : env.resourceSize = some sz) (hsz : sz ≠ 0) :
    installSnap cfg env w =
      ({ w with snaps := { w.snaps with present := setPresent w.snaps.present env.localSnapName },
                status := Status.active "snap installed" },
       [Effect.installLocal true cfg.classic], Except.ok env.localSnapName) ∧
    hasStoreEnsure (installSnap cfg env w).2.1 = false := by
  constructor
  · simp [installSnap, hres, hsz]
  · simp [installSnap, hres, hsz, hasStoreEnsure]

/-- Concrete instance of `install_snap_prefers_resource`: a 42-byte resource
is attached while `snap-name` is also configured; the resource wins. -/
theorem install_snap_prefers_resource_witness :
    installSnap cfgStore envRes emptyWorld =
      ({ emptyWorld with
          snaps := { emptyWorld.snaps with
                     present := setPresent emptyWorld.snaps.present envRes.localSnapName },
          status := Status.active "snap installed" },
       [Effect.installLocal true cfgStore.classic], Except.ok envRes.localSnapName) ∧
    hasStoreEnsure (installSnap cfgStore envRes emptyWorld).2.1 = false :=
  install_snap_prefers_resource cfgStore envRes emptyWorld 42 rfl (by decide)

/-- Claim C4 (confirmed): when `load_config` fails with a `ValueError` whose
text is `e`, the constructor sets status blocked with exactly `e` as the
message and returns before registering any event handler or COS endpoint, so
no install, config-changed, or upgrade handler can run for that instance. -/
theorem init_config_error_blocks_and_registers_nothing (e appName : String) (w : World) :
    (charmInit (Except.error e) appName w).world.status = Status.blocked e ∧
    (charmInit (Except.error e) appName w).handlers = [] ∧
    (charmInit (Except.error e) appName w).endpoints = [] :=
  ⟨rfl, rfl, rfl⟩

/-- Claim C10 (confirmed): on a successful construction the single registered
scrape endpoint has path `"/" ++ metrics_path` — the slash is prepended
verbatim, so a `metrics_path` that already starts with `"/"` yields a path
starting with `"//"` — and port equal to `exporter_port`. -/
theorem init_registers_slash_prepended_endpoint (cfg : ExporterConfig) (appName : String)
    (w : World) :
    (charmInit (Except.ok cfg) appName w).endpoints =
      [{ path := "/" ++ cfg.metrics_path, port := cfg.exporter_port }] := rfl

theorem hasStoreEnsure_append (l1 l2 : List Effect) :
    hasStoreEnsure (l1 ++ l2) = (hasStoreEnsure l1 || hasStoreEnsure l2) := by
  induction l1 with
  | nil => simp [hasStoreEnsure]
  | cons a rest ih => cases a <;> simp [hasStoreEnsure, ih]

theorem hasSnapSet_append (l1 l2 : List Effect) :
    hasSnapSet (l1 ++ l2) = (hasSnapSet l1 || hasSnapSet l2) := by
  induction l1 with
  | nil => simp [hasSnapSet]
  | cons a rest ih => cases a <;> simp [hasSnapSet, ih]

theorem hasWriteFile_append (l1 l2 : List Effect) :
    hasWriteFile (l1 ++ l2) = (hasWriteFile l1 || hasWriteFile l2) := by
  induction l1 with
  | nil => simp [hasWriteFile]
  | cons a rest ih => cases a <;> simp [hasWriteFile, ih]

theorem installSnapStore_trace (cfg : ExporterConfig) (w : World) :
    (installSnapStore cfg w).2.1 = [] ∨
    (installSnapStore cfg w).2.1 =
      [Effect.storeEnsure (cfg.snap_name.getD "") cfg.snap_channel cfg.classic] := by
  unfold installSnapStore
  split
  · left; rfl
  · split
    · left; rfl
    · right; rfl

theorem installSnap_trace (cfg : ExporterConfig) (env : Env) (w : World) :
    (installSnap cfg env w).2.1 = [] ∨
    (installSnap cfg env w).2.1 =
      [Effect.storeEnsure (cfg.snap_name.getD "") cfg.snap_channel cfg.classic] ∨
    (installSnap cfg env w).2.1 = [Effect.installLocal true cfg.classic] := by
  unfold installSnap
  cases h : env.resourceSize with
  | none =>
    rcases installSnapStore_trace cfg w with h' | h'
    · exact Or.inl h'
    · exact Or.inr (Or.inl h')
  | some sz =>
    by_cases hsz : sz = 0
    · simp only [hsz, if_pos]
      rcases installSnapStore_trace cfg w with h' | h'
      · exact Or.inl h'
      · exact Or.inr (Or.inl h')
    · simp [hsz]

theorem installSnap_no_writeFile (cfg : ExporterConfig) (env : Env) (w : World) :
    hasWriteFile (installSnap cfg env w).2.1 = false := by
  rcases installSnap_trace cfg env w with h | h | h <;> rw [h] <;> rfl

theorem installSnap_no_snapSet (cfg : ExporterConfig) (env : Env) (w : World) :
    hasSnapSet (installSnap cfg env w).2.1 = false := by
  rcases installSnap_trace cfg env w with h | h | h <;> rw [h] <;> rfl

theorem installSnapStore_config (cfg : ExporterConfig) (w : World) :
    (installSnapStore cfg w).1.snaps.config = w.snaps.config := by
  unfold installSnapStore
  split
  · rfl
  · split <;> rfl

theorem installSnap_config_unchanged (cfg : ExporterConfig) (env : Env) (w : World) :
    (installSnap cfg env w).1.snaps.config = w.snaps.config := by
  unfold installSnap
  cases h : env.resourceSize with
  | none => exact installSnapStore_config cfg w
  | some sz =>
    by_cases hsz : sz = 0
    · simp only [hsz, if_pos]
      exact installSnapStore_config cfg w
    · simp [hsz]

/-- Every successful `_configure` run ends in the alert-rules write (steps 4-6
of charm.py:110-116), and no earlier step writes a file. -/
theorem configure_ok_shape (cfg : ExporterConfig) (env : Env) (w : World)
    (hok : (configure cfg env w).2.2 = Except.ok ()) :
    ∃ w' tr', configure cfg env w = writeRules cfg env w' tr' ∧
      hasWriteFile tr' = false := by
  have hnw := installSnap_no_writeFile cfg env w
  obtain ⟨⟨wa, tra, ra⟩, hI⟩ : ∃ x, installSnap cfg env w = x := ⟨_, rfl⟩
  unfold configure at hok ⊢
  rw [hI] at hok hnw ⊢
  simp only at hnw
  cases ra with
  | error e => simp at hok
  | ok name =>
    by_cases hb : ((env.yamlLoad (cfg.snap_config.getD "")).truthy
        && !(env.yamlLoad (cfg.snap_config.getD "")).isStrNone) = true
    · simp only [hb, if_true] at hok ⊢
      cases hy : env.yamlLoad (cfg.snap_config.getD "") with
      | map entries =>
        rw [hy] at hok
        refine ⟨_, tra ++ [Effect.snapSet name], rfl, ?_⟩
        simp [hasWriteFile_append, hasWriteFile, hnw]
      | null => rw [hy] at hok; simp at hok
      | bool b => rw [hy] at hok; simp at hok
      | int n => rw [hy] at hok; simp at hok
      | str s => rw [hy] at hok; simp at hok
    · simp only [hb, if_false] at hok ⊢
      exact ⟨wa, tra, rfl, hnw⟩

theorem writesPrecededByMkdir_append (dir : String) (l rest : List Effect)
    (h : hasWriteFile l = false) :
    writesPrecededByMkdir dir (l ++ Effect.mkdirP dir :: rest) = true := by
  induction l with
  | nil => simp [writesPrecededByMkdir]
  | cons a l ih =>
    cases a with
    | installLocal d c =>
      rw [List.cons_append]
      simp only [writesPrecededByMkdir]
      exact ih (by simpa [hasWriteFile] using h)
    | storeEnsure n ch cl =>
      rw [List.cons_append]
      simp only [writesPrecededByMkdir]
      exact ih (by simpa [hasWriteFile] using h)
    | snapSet n =>
      rw [List.cons_append]
      simp only [writesPrecededByMkdir]
      exact ih (by simpa [hasWriteFile] using h)
    | mkdirP d =>
      rw [List.cons_append]
      by_cases hd : d = dir
      · simp [writesPrecededByMkdir, hd]
      · simp only [writesPrecededByMkdir, if_neg hd]
        exact ih (by simpa [hasWriteFile] using h)
    | writeFile p c => simp [hasWriteFile] at h

/-- Claim C1 counterexample: a zero-byte resource is attached and a snap name
is configured; `_install_snap` does not fail with any empty-resource error —
it returns successfully and the store-install path IS reached. -/
theorem empty_resource_reaches_store_counterexample :
    (installSnap cfgStore envRes0 emptyWorld).2.2 = Except.ok "node-exporter" ∧
    hasStoreEnsure (installSnap cfgStore envRes0 emptyWorld).2.1 = true :=
  ⟨rfl, rfl⟩

/-- Claim C1 amended: a zero-byte attached resource makes
`_install_from_resource` raise `ops.model.ModelError("Resource File is
empty")` (there is no distinct `EmptyResourceError` class), which the
`except ops.model.ModelError` clause of `_install_snap` catches exactly like
the no-resource case: the run proceeds to the store path, behaving
identically to no resource being attached, and no local install of the empty
artifact is attempted. -/
theorem empty_resource_same_as_absent (cfg : ExporterConfig) (env : Env) (w : World)
    (hres : env.resourceSize = some 0) :
    installSnap cfg env w = installSnap cfg { env with resourceSize := none } w ∧
    hasInstallLocal (installSnap cfg env w).2.1 = false := by
  have hstore : installSnap cfg env w = installSnapStore cfg w := by
    simp [installSnap, hres]
  constructor
  · rw [hstore]; simp [installSnap]
  · rw [hstore]
    rcases installSnapStore_trace cfg w with h | h <;> rw [h] <;> rfl

/-- Concrete instance of `empty_resource_same_as_absent`: zero-byte resource
with a configured snap name. -/
theorem empty_resource_same_as_absent_witness :
    installSnap cfgStore envRes0 emptyWorld =
      installSnap cfgStore { envRes0 with resourceSize := none } emptyWorld ∧
    hasInstallLocal (installSnap cfgStore envRes0 emptyWorld).2.1 = false :=
  empty_resource_same_as_absent cfgStore envRes0 emptyWorld rfl

/-- Claim C5 (confirmed): when `snap-config` is unset, empty, or the
placeholder string `"None"`, the configuration-changed handler performs no
configuration push (`snap set`): no such call appears in the trace and every
snap's configuration store is untouched. Uses PyYAML facts as hypotheses:
`safe_load("")` is `None` and `safe_load("None")` is the string `"None"`. -/
theorem configure_skips_snap_config_push (cfg : ExporterConfig) (env : Env) (w : World)
    (hcfg : cfg.snap_config = none ∨ cfg.snap_config = some "" ∨ cfg.snap_config = some "None")
    (hy0 : env.yamlLoad "" = YamlValue.null)
    (hyN : env.yamlLoad "None" = YamlValue.str "None") :
    (configure cfg env w).1.snaps.config = w.snaps.config ∧
    hasSnapSet (configure cfg env w).2.1 = false := by
  have hcond : ¬ (((env.yamlLoad (cfg.snap_config.getD "")).truthy
      && !(env.yamlLoad (cfg.snap_config.getD "")).isStrNone) = true) := by
    rcases hcfg with h | h | h <;>
      simp [h, hy0, hyN, YamlValue.truthy, YamlValue.isStrNone]
  have hconf := installSnap_config_unchanged cfg env w
  have hset := installSnap_no_snapSet cfg env w
  obtain ⟨⟨wa, tra, ra⟩, hI⟩ : ∃ x, installSnap cfg env w = x := ⟨_, rfl⟩
  rw [hI] at hconf hset
  simp only at hconf hset
  unfold configure
  rw [hI]
  cases ra with
  | error e => exact ⟨hconf, hset⟩
  | ok name =>
    simp only [hcond, if_false]
    constructor
    · simpa [writeRules] using hconf
    · simp [writeRules, hasSnapSet_append, hasSnapSet, hset]

/-- Concrete instance of `configure_skips_snap_config_push`: `snap-config` is
the placeholder string "None". -/
theorem configure_skips_snap_config_push_witness :
    (configure { cfgStore with snap_config := some "None" } envNoRes emptyWorld).1.snaps.config
        = emptyWorld.snaps.config ∧
    hasSnapSet (configure { cfgStore with snap_config := some "None" } envNoRes emptyWorld).2.1
        = false :=
  configure_skips_snap_config_push _ _ _ (Or.inr (Or.inr rfl)) rfl rfl

/-- Claim C6 counterexample: with `alert-rules` configured as the empty string
(a set value, not absent), the handler completes but the rules file holds the
placeholder `"# no alerts\n"`, not the configured (empty) rule text. -/
theorem alert_rules_empty_string_counterexample :
    (configure { cfgStore with alert_rules := some "" } envNoRes emptyWorld).2.2
        = Except.ok () ∧
    (configure { cfgStore with alert_rules := some "" } envNoRes emptyWorld).1.fs.files
        (rulesFile envNoRes.appName) = some "# no alerts\n" ∧
    some "# no alerts\n" ≠ some "" := by
  refine ⟨rfl, rfl, by decide⟩

/-- Claim C6 amended: on every configuration-changed run that completes, the
alert-rules file is fully overwritten, independent of its previous content
(the initial world `w` is arbitrary): its new content is exactly
`"# no alerts\n"` when `alert-rules` is unset OR set to the empty string, and
exactly the configured rule text otherwise. -/
theorem configure_overwrites_alert_rules (cfg : ExporterConfig) (env : Env) (w : World)
    (hok : (configure cfg env w).2.2 = Except.ok ()) :
    (configure cfg env w).1.fs.files (rulesFile env.appName) =
      some (match cfg.alert_rules with
            | none => "# no alerts\n"
            | some s => if s = "" then "# no alerts\n" else s) := by
  obtain ⟨w', tr', heq, -⟩ := configure_ok_shape cfg env w hok
  rw [heq]
  cases hr : cfg.alert_rules with
  | none => simp [writeRules, writeText, orDefault, hr, noAlerts]
  | some s =>
    by_cases hs : s = "" <;>
      simp [writeRules, writeText, orDefault, hr, hs, noAlerts]

/-- Concrete instance of `configure_overwrites_alert_rules`: a non-empty rule
text is configured and lands verbatim in the file. -/
theorem configure_overwrites_alert_rules_witness :
    (configure { cfgStore with alert_rules := some "groups: []\n" } envNoRes
        emptyWorld).1.fs.files (rulesFile envNoRes.appName) =
      some (match ({ cfgStore with alert_rules := some "groups: []\n" }
                    : ExporterConfig).alert_rules with
            | none => "# no alerts\n"
            | some s => if s = "" then "# no alerts\n" else s) :=
  configure_overwrites_alert_rules _ envNoRes emptyWorld rfl

/-- Claim C7 (confirmed): on every configuration-changed run that completes,
the handler creates the alert-rules directory (idempotently) before any file
write occurs in the trace, a file write does occur, and the directory exists
in the final state. -/
theorem configure_mkdir_before_write (cfg : ExporterConfig) (env : Env) (w : World)
    (hok : (configure cfg env w).2.2 = Except.ok ()) :
    writesPrecededByMkdir (rulesDir env.appName) (configure cfg env w).2.1 = true ∧
    hasWriteFile (configure cfg env w).2.1 = true ∧
    (configure cfg env w).1.fs.dirs (rulesDir env.appName) = true := by
  obtain ⟨w', tr', heq, hnw⟩ := configure_ok_shape cfg env w hok
  rw [heq]
  refine ⟨?_, ?_, ?_⟩
  · exact writesPrecededByMkdir_append (rulesDir env.appName) tr' _ hnw
  · simp [writeRules, hasWriteFile_append, hasWriteFile]
  · simp [writeRules, mkdirP]

/-- Concrete instance of `configure_mkdir_before_write`. -/
theorem configure_mkdir_before_write_witness :
    writesPrecededByMkdir (rulesDir envNoRes.appName)
        (configure cfgStore envNoRes emptyWorld).2.1 = true ∧
    hasWriteFile (configure cfgStore envNoRes emptyWorld).2.1 = true ∧
    (configure cfgStore envNoRes emptyWorld).1.fs.dirs (rulesDir envNoRes.appName) = true :=
  configure_mkdir_before_write cfgStore envNoRes emptyWorld rfl

/-- Claim C9 (confirmed): `alert-rules` set to the empty string is treated
like absence — the placeholder `"# no alerts\n"` is written. -/
theorem configure_empty_alert_rules_placeholder (cfg : ExporterConfig) (env : Env) (w : World)
    (hr : cfg.alert_rules = some "")
    (hok : (configure cfg env w).2.2 = Except.ok ()) :
    (configure cfg env w).1.fs.files (rulesFile env.appName) = some "# no alerts\n" := by
  obtain ⟨w', tr', heq, -⟩ := configure_ok_shape cfg env w hok
  rw [heq]
  simp [writeRules, writeText, orDefault, hr, noAlerts]

/-- Concrete instance of `configure_empty_alert_rules_placeholder`. -/
theorem configure_empty_alert_rules_placeholder_witness :
    (configure { cfgStore with alert_rules := some "" } envNoRes emptyWorld).1.fs.files
        (rulesFile envNoRes.appName) = some "# no alerts\n" :=
  configure_empty_alert_rules_placeholder _ _ _ rfl rfl

theorem installSnapStore_ok_present (cfg : ExporterConfig) (w wa : World)
    (tra : List Effect) (name : String)
    (hI : installSnapStore cfg w = (wa, tra, Except.ok name)) :
    wa.snaps.present name = true := by
  unfold installSnapStore at hI
  by_cases hu : snapNameUnset cfg.snap_name = true
  · rw [if_pos hu] at hI
    simp [Prod.mk.injEq] at hI
  · rw [if_neg hu] at hI
    by_cases hp : w.snaps.present (cfg.snap_name.getD "") = true
    · rw [if_pos hp] at hI
      simp only [Prod.mk.injEq, Except.ok.injEq] at hI
      obtain ⟨hwa, -, hname⟩ := hI
      subst hwa
      subst hname
      exact hp
    · rw [if_neg hp] at hI
      simp only [Prod.mk.injEq, Except.ok.injEq] at hI
      obtain ⟨hwa, -, hname⟩ := hI
      subst hwa
      subst hname
      simp [setPresent_apply]

theorem installSnap_ok_present (cfg : ExporterConfig) (env : Env) (w wa : World)
    (tra : List Effect) (name : String)
    (hI : installSnap cfg env w = (wa, tra, Except.ok name)) :
    wa.snaps.present name = true := by
  cases hres : env.resourceSize with
  | none =>
    have hred : installSnap cfg env w = installSnapStore cfg w := by
      unfold installSnap; rw [hres]
    rw [hred] at hI
    exact installSnapStore_ok_present cfg w wa tra name hI
  | some sz =>
    by_cases hsz : sz = 0
    · have hred : installSnap cfg env w = installSnapStore cfg w := by
        unfold installSnap; rw [hres]; simp [hsz]
      rw [hred] at hI
      exact installSnapStore_ok_present cfg w wa tra name hI
    · have hred : installSnap cfg env w =
          ({ w with snaps := { w.snaps with
                               present := setPresent w.snaps.present env.localSnapName },
                    status := Status.active "snap installed" },
           [Effect.installLocal true cfg.classic], Except.ok env.localSnapName) := by
        unfold installSnap; rw [hres]; simp [hsz]
      rw [hred] at hI
      simp only [Prod.mk.injEq, Except.ok.injEq] at hI
      obtain ⟨hwa, -, hname⟩ := hI
      subst hwa
      subst hname
      simp [setPresent_apply]

/-- Re-running `_install_snap` from any state in which the snap it returned is
already present succeeds again with the same name, only sets active status,
and makes no store-install call. -/
theorem installSnap_rerun (cfg : ExporterConfig) (env : Env) (w wa : World)
    (tra : List Effect) (name : String)
    (hI : installSnap cfg env w = (wa, tra, Except.ok name))
    (v : World) (hv : v.snaps.present name = true) :
    ∃ tr2, installSnap cfg env v =
        ({ v with status := Status.active "snap installed" }, tr2, Except.ok name) ∧
      hasStoreEnsure tr2 = false := by
  cases hres : env.resourceSize with
  | none =>
    have hred : ∀ u : World, installSnap cfg env u = installSnapStore cfg u := by
      intro u; unfold installSnap; rw [hres]
    rw [hred] at hI
    rw [hred]
    unfold installSnapStore at hI ⊢
    by_cases hu : snapNameUnset cfg.snap_name = true
    · rw [if_pos hu] at hI
      simp [Prod.mk.injEq] at hI
    · rw [if_neg hu] at hI
      have hname : name = cfg.snap_name.getD "" := by
        by_cases hp : w.snaps.present (cfg.snap_name.getD "") = true
        · rw [if_pos hp] at hI
          simp only [Prod.mk.injEq, Except.ok.injEq] at hI
          exact hI.2.2.symm
        · rw [if_neg hp] at hI
          simp only [Prod.mk.injEq, Except.ok.injEq] at hI
          exact hI.2.2.symm
      subst hname
      refine ⟨[], ?_, rfl⟩
      rw [if_neg hu, if_pos hv]
  | some sz =>
    by_cases hsz : sz = 0
    · have hred : ∀ u : World, installSnap cfg env u = installSnapStore cfg u := by
        intro u; unfold installSnap; rw [hres]; simp [hsz]
      rw [hred] at hI
      rw [hred]
      unfold installSnapStore at hI ⊢
      by_cases hu : snapNameUnset cfg.snap_name = true
      · rw [if_pos hu] at hI
        simp [Prod.mk.injEq] at hI
      · rw [if_neg hu] at hI
        have hname : name = cfg.snap_name.getD "" := by
          by_cases hp : w.snaps.present (cfg.snap_name.getD "") = true
          · rw [if_pos hp] at hI
            simp only [Prod.mk.injEq, Except.ok.injEq] at hI
            exact hI.2.2.symm
          · rw [if_neg hp] at hI
            simp only [Prod.mk.injEq, Except.ok.injEq] at hI
            exact hI.2.2.symm
        subst hname
        refine ⟨[], ?_, rfl⟩
        rw [if_neg hu, if_pos hv]
    · have hred : ∀ u : World, installSnap cfg env u =
          ({ u with snaps := { u.snaps with
                               present := setPresent u.snaps.present env.localSnapName },
                    status := Status.active "snap installed" },
           [Effect.installLocal true cfg.classic], Except.ok env.localSnapName) := by
        intro u; unfold installSnap; rw [hres]; simp [hsz]
      rw [hred] at hI
      simp only [Prod.mk.injEq, Except.ok.injEq] at hI
      obtain ⟨-, -, hname⟩ := hI
      subst hname
      refine ⟨[Effect.installLocal true cfg.classic], ?_, rfl⟩
      rw [hred v, setPresent_self v.snaps.present env.localSnapName hv]

/-- Claim C8 (confirmed): running `_configure` a second time with identical
inputs from the state a successful run produced is a no-op: the resulting
world (alert-rules file contents, snap configuration, everything else) equals
the first run's result, the second run also succeeds, and the second run makes
no store-install call (a repeated install of an already-present snap is
skipped by `_install_from_store`). -/
theorem configure_idempotent (cfg : ExporterConfig) (env : Env) (w w1 : World)
    (tr1 : List Effect)
    (h : configure cfg env w = (w1, tr1, Except.ok ())) :
    (configure cfg env w1).1 = w1 ∧
    (configure cfg env w1).2.2 = Except.ok () ∧
    hasStoreEnsure (configure cfg env w1).2.1 = false := by
  obtain ⟨⟨wa, tra, ra⟩, hI⟩ : ∃ x, installSnap cfg env w = x := ⟨_, rfl⟩
  unfold configure at h ⊢
  rw [hI] at h
  cases ra with
  | error e => simp at h
  | ok name =>
    have hpa : wa.snaps.present name = true :=
      installSnap_ok_present cfg env w wa tra name hI
    by_cases hb : ((env.yamlLoad (cfg.snap_config.getD "")).truthy
        && !(env.yamlLoad (cfg.snap_config.getD "")).isStrNone) = true
    · simp only [hb, if_true] at h
      cases hy : env.yamlLoad (cfg.snap_config.getD "") with
      | map entries =>
        rw [hy] at h hb
        simp only [writeRules, Prod.mk.injEq] at h
        obtain ⟨hw1, -⟩ := h
        have hv1 : w1.snaps.present name = true := by
          rw [← hw1]; simpa using hpa
        obtain ⟨tr2a, hrun2, hse2⟩ :=
          installSnap_rerun cfg env w wa tra name hI w1 hv1
        subst hw1
        rw [hrun2]
        simp only [hb, if_true]
        refine ⟨?_, ?_, ?_⟩
        · simp [writeRules, setSnapConfig_idem, mkdirP_idem, writeText_idem]
        · simp [writeRules]
        · simp [writeRules, hasStoreEnsure_append, hasStoreEnsure, hse2]
      | null => rw [hy] at h; simp at h
      | bool b => rw [hy] at h; simp at h
      | int n => rw [hy] at h; simp at h
      | str s => rw [hy] at h; simp at h
    · simp only [if_neg hb] at h
      simp only [writeRules, Prod.mk.injEq] at h
      obtain ⟨hw1, -⟩ := h
      have hv1 : w1.snaps.present name = true := by
        rw [← hw1]; simpa using hpa
      obtain ⟨tr2a, hrun2, hse2⟩ :=
        installSnap_rerun cfg env w wa tra name hI w1 hv1
      subst hw1
      rw [hrun2]
      simp only [if_neg hb]
      refine ⟨?_, ?_, ?_⟩
      · simp [writeRules, mkdirP_idem, writeText_idem]
      · simp [writeRules]
      · simp [writeRules, hasStoreEnsure_append, hasStoreEnsure, hse2]

/-- Concrete instance of `configure_idempotent`: re-running the handler on its
own output world changes nothing. -/
theorem configure_idempotent_witness :
    (configure cfgStore envNoRes (configure cfgStore envNoRes emptyWorld).1).1 =
      (configure cfgStore envNoRes emptyWorld).1 ∧
    (configure cfgStore envNoRes (configure cfgStore envNoRes emptyWorld).1).2.2 =
      Except.ok () ∧
    hasStoreEnsure
        (configure cfgStore envNoRes (configure cfgStore envNoRes emptyWorld).1).2.1 =
      false :=
  configure_idempotent cfgStore envNoRes emptyWorld
    (configure cfgStore envNoRes emptyWorld).1
    (configure cfgStore envNoRes emptyWorld).2.1 rfl
